import Mathlib

/-!
Shallow embedding of `server/src/services/typescriptService/preprocess.ts`
(vetur). The TypeScript AST is modelled by the fragment of node shapes the
file constructs or inspects; external collaborators (region splitter,
vue-eslint-parser, the template transform visitor, the TS printer/parser
and the host language-service create/update primitives) are parameters,
since their code is outside this file.
-/

set_option autoImplicit false

namespace Vetur

/-- Source position range of an AST node (TypeScript `pos` / `end`); newly
created synthetic nodes carry `-1` / `-1` until `setTextRange` is applied. -/
structure TextRange where
  pos : Int
  endPos : Int
  deriving DecidableEq, Repr

/-- Range carried by every freshly created (synthetic) TS node. -/
def synthRange : TextRange := ⟨-1, -1⟩

/-- Import clause of an import declaration: optional default-import name,
optional named-import specifier list (`createImportClause(name, namedBindings)`). -/
structure ImportClause where
  name : Option String
  namedBindings : Option (List String)
  range : TextRange
  deriving DecidableEq, Repr

mutual
/-- The expression shapes `preprocess.ts` constructs or inspects: object
literals (kept opaque, tagged), identifiers, string literals, call
expressions (whose argument `NodeArray` carries its own range, set by
`setObjPos` in `modifyVueScript`), function expressions, and anything else. -/
inductive Expression where
  | objectLiteral (tag : Nat) (range : TextRange)
  | identifier (name : String) (range : TextRange)
  | stringLiteral (value : String) (range : TextRange)
  | call (callee : Expression) (args : List Expression) (argsRange : TextRange) (range : TextRange)
  | functionExpr (params : List String) (body : List Statement) (range : TextRange)
  | other (tag : Nat) (range : TextRange)

/-- The statement shapes `preprocess.ts` constructs or inspects: export
assignments (`export default <expr>`), import declarations, expression
statements, and anything else. -/
inductive Statement where
  | exportAssignment (expr : Expression) (range : TextRange)
  | importDecl (clause : ImportClause) (moduleName : Expression) (range : TextRange)
  | expressionStatement (expr : Expression) (range : TextRange)
  | other (tag : Nat) (range : TextRange)
end

/-- Range of a statement node. -/
def Statement.range : Statement → TextRange
  | .exportAssignment _ r => r
  | .importDecl _ _ r => r
  | .expressionStatement _ r => r
  | .other _ r => r

/-- A `ts.SourceFile`: JS object identity is modelled by `id` (needed for the
`WeakMap` / `WeakSet` trackers), plus the fields `preprocess.ts` touches. -/
structure SourceFile where
  id : Nat
  fileName : String
  statements : List Statement
  externalModuleIndicator : Option Statement := none

/-- The `ts.ScriptKind` enumeration. -/
inductive ScriptKind where
  | Unknown | JS | JSX | TS | TSX | External | JSON | Deferred
  deriving DecidableEq, Repr

/-- Last path component (`path.basename`). -/
def basename (p : String) : String :=
  (p.splitOn "/").getLastD ""

/-- File extension of the basename, including the dot (`path.extname`):
empty when the basename has no dot or only a leading dot. -/
def extname (p : String) : String :=
  let b := basename p
  match b.splitOn "." with
  | [] => ""
  | [_] => ""
  | parts =>
    if parts.length == 2 && b.startsWith "." then ""
    else "." ++ parts.getLastD ""

/-- `isVue`: the file name has extension `.vue`. -/
def isVue (filename : String) : Bool :=
  extname filename == ".vue"

/-- `isTSLike`: the script kind is TS or TSX (an absent kind is not TS-like). -/
def isTSLike (scriptKind : Option ScriptKind) : Bool :=
  scriptKind == some .TS || scriptKind == some .TSX

/-- Modelled from the spec: `isVirtualVueTemplateFile` (from
`typescriptService/util`, outside this file) recognises the virtual
template-document identity by its reserved `.template` suffix. -/
def isVirtualVueTemplateFile (fileName : String) : Bool :=
  fileName.endsWith ".template"

/-- Length of the reserved `'.template'` suffix. -/
def templateSuffixLength : Nat := 9

/-- The predicate of `modifyVueScript`'s `find`: an `ExportAssignment`
statement whose exported expression is an `ObjectLiteralExpression`. -/
def isExportDefaultObject : Statement → Bool
  | .exportAssignment e _ =>
    match e with
    | .objectLiteral _ _ => true
    | _ => false
  | _ => false

/-- Replace the first statement satisfying `p` by its image under `f`,
leaving every other statement untouched (the in-place mutation of the
statement object `find` located). -/
def wrapFirst (p : Statement → Bool) (f : Statement → Statement) : List Statement → List Statement
  | [] => []
  | s :: rest => if p s then f s :: rest else s :: wrapFirst p f rest

/-- The in-place rewrite of the found `export default <objectLiteral>`
statement: its expression becomes `__vueEditorBridge(<objectLiteral>)`, where
the callee identifier spans `objectLiteral.pos .. objectLiteral.pos + 1`
(`setTextRange` on the identifier) and both the call node and its argument
`NodeArray` receive the object literal's exact original range (`setObjPos`). -/
def wrapExportDefaultObject : Statement → Statement
  | .exportAssignment (.objectLiteral tag r) rng =>
    let vue := Expression.identifier "__vueEditorBridge" ⟨r.pos, r.pos + 1⟩
    .exportAssignment (.call vue [.objectLiteral tag r] r r) rng
  | s => s

/-- The `import __vueEditorBridge from 'vue-editor-bridge'` declaration
inserted by `modifyVueScript`; every synthesized node is given the
zero-width range `(0, 0)` by `setZeroPos`. -/
def vueEditorBridgeImport : Statement :=
  .importDecl ⟨some "__vueEditorBridge", none, ⟨0, 0⟩⟩
    (.stringLiteral "vue-editor-bridge" ⟨0, 0⟩) ⟨0, 0⟩

/-- `modifyVueScript`: if some top-level statement is an export-default of an
object literal, unshift the bridge import and wrap that first such
statement's object literal in a `__vueEditorBridge(...)` call; otherwise the
file is left untouched. -/
def modifyVueScript (sourceFile : SourceFile) : SourceFile :=
  match sourceFile.statements.find? isExportDefaultObject with
  | none => sourceFile
  | some _ =>
    { sourceFile with
      statements :=
        vueEditorBridgeImport ::
          wrapFirst isExportDefaultObject wrapExportDefaultObject sourceFile.statements }

/-- Two ranges overlap when some offset lies in both half-open spans. -/
def rangesOverlap (a b : TextRange) : Bool :=
  max a.pos b.pos < min a.endPos b.endPos

/-- Modelled from the spec: the region-splitting service
(`getVueDocumentRegions` / `getSingleTypeDocument`, outside this file)
yields the script-region text and the template-region text with its
language classification. -/
structure Regions where
  scriptText : String
  templateText : String
  templateLanguageId : String

/-- `parseVueScript`: text of the script region, with the falsy-string
fallback `'export default {};'` when the region text is empty. -/
def parseVueScript (regions : String → Regions) (text : String) : String :=
  let script := (regions text).scriptText
  if script == "" then "export default {};" else script

/-- Whitespace in the sense of the regular expression class used by
`rawText.replace(/\s/g, '')` (the ASCII part of it). -/
def isJsWhitespace (c : Char) : Bool :=
  c == ' ' || c == '\t' || c == '\n' || c == '\r' || c == Char.ofNat 11 || c == Char.ofNat 12

/-- Remove every whitespace character (`rawText.replace(/\s/g, '')`). -/
def stripWhitespace (s : String) : String :=
  String.mk (s.toList.filter (fun c => !isJsWhitespace c))

/-- Replace the first run of ten spaces by `<template>`
(`rawText.replace(/ \x7b10\x7d/, '<template>')`). -/
def replaceTenSpaces : List Char → List Char
  | [] => []
  | c :: rest =>
    if (c :: rest).take 10 = List.replicate 10 ' ' then
      "<template>".toList ++ (c :: rest).drop 10
    else c :: replaceTenSpaces rest

/-- `parseVueTemplate`: empty unless the template region is classified
`vue-html`; empty when the region text is whitespace-only; otherwise the
region text with the first ten-space run replaced by `<template>` and a
closing `</template>` appended. -/
def parseVueTemplate (regions : String → Regions) (text : String) : String :=
  let template := regions text
  if template.templateLanguageId != "vue-html" then ""
  else
    let rawText := template.templateText
    if stripWhitespace rawText == "" then ""
    else String.mk (replaceTenSpaces rawText.toList) ++ "</template>"

/-- Modelled from the spec: the generic template tree produced by the
external markup parser (`vue-eslint-parser`), kept opaque. -/
structure Program where
  tag : Nat

/-- Outcome of the external transform visitor: either the ordered expression
sequence, or a thrown error. A thrown error also records the expressions the
visitor had produced before throwing — internal progress that a JS `throw`
makes unobservable to the caller (the interrupted assignment never happens). -/
inductive TransformOutcome where
  | ok (exprs : List Expression)
  | threw (produced : List Expression) (errMsg : String)

/-- A `ts.TextChangeRange` (opaque: only passed through to the host update). -/
structure TextChangeRange where
  spanStart : Int
  spanLength : Int
  newLength : Int

/-- Position map produced by `generateSourceMap` (from `sourceMap.ts`,
outside this file): ordered original-range / synthetic-range pairs. -/
def SourceMapNodes := List (TextRange × TextRange)

/-- The external collaborators `createUpdater` closes over: the region
splitter, the markup parser, the transform visitor, the source-map builder,
and the host engine's native create / update primitives (`clssf` / `ulssf`). -/
structure Externals where
  regions : String → Regions
  parseTemplate : String → Program
  transformTemplate : Program → String → TransformOutcome
  generateSourceMap : SourceFile → SourceFile → SourceMapNodes
  clssf : String → String → String → Option ScriptKind → SourceFile
  ulssf : SourceFile → String → String → TextChangeRange → SourceFile

/-- The mutable state `createUpdater` owns: the per-object script-kind
record (`WeakMap`), the per-object processed mark (`WeakSet`), the
process-wide `templateSourceMap` table, the console log, and a counter
supplying fresh object identities for re-parsed files. -/
structure UpdaterState where
  scriptKindTracker : List (Nat × Option ScriptKind)
  modificationTracker : List Nat
  templateSourceMap : List (String × SourceMapNodes)
  logs : List String
  nextId : Nat

/-- Most recent value stored for a key (later stores shadow earlier ones,
as JS property assignment overwrites). -/
def mapLookup (m : List (String × SourceMapNodes)) (k : String) : Option SourceMapNodes :=
  (m.find? (fun p => p.1 == k)).map (fun p => p.2)

/-- `scriptKindTracker.get`: an absent entry and a stored `undefined` both
read back as `undefined`. -/
def kindLookup (t : List (Nat × Option ScriptKind)) (id : Nat) : Option ScriptKind :=
  match t.find? (fun p => p.1 == id) with
  | some (_, k) => k
  | none => none

/-- The names of the four helper symbols imported from the bridge module.
Modelled from the spec: they are exported by `transformTemplate.ts`
(outside this file); no claim depends on their exact spelling. -/
def renderHelperName : String := "__vlsRenderHelper"

/-- Bridge helper symbol for components (see `renderHelperName`). -/
def componentHelperName : String := "__vlsComponentHelper"

/-- Bridge helper symbol for iteration (see `renderHelperName`). -/
def iterationHelperName : String := "__vlsIterationHelper"

/-- Bridge helper symbol for event listeners (see `renderHelperName`). -/
def listenerHelperName : String := "__vlsListenerHelper"

/-- `injectVueTemplate`: replace the file's statements with exactly
`[componentImport, helperImport, renderElement]` — an import of
`__Component` from the sibling `.vue` file, an import of the four helper
symbols from `vue-editor-bridge`, and a statement calling the render helper
on `__Component` and a function expression whose block wraps each
transformed expression as an expression statement — and point the file's
`externalModuleIndicator` at the component import. -/
def injectVueTemplate (sourceFile : SourceFile) (renderBlock : List Expression) : SourceFile :=
  let vueFilePath := "./" ++ basename (sourceFile.fileName.dropRight templateSuffixLength)
  let componentImport : Statement :=
    .importDecl ⟨some "__Component", none, synthRange⟩
      (.stringLiteral vueFilePath synthRange) synthRange
  let helperImport : Statement :=
    .importDecl
      ⟨none, some [renderHelperName, componentHelperName, iterationHelperName, listenerHelperName],
        synthRange⟩
      (.stringLiteral "vue-editor-bridge" synthRange) synthRange
  let statements := renderBlock.map (fun exp => Statement.expressionStatement exp synthRange)
  let renderElement : Statement :=
    .expressionStatement
      (.call (.identifier renderHelperName synthRange)
        [.identifier "__Component" synthRange,
          .functionExpr [] statements synthRange]
        synthRange synthRange)
      synthRange
  { sourceFile with
    statements := [componentImport, helperImport, renderElement]
    externalModuleIndicator := some componentImport }

/-- Modelled from the spec: `printer.printFile` followed by
`tsModule.createSourceFile` renders the synthetic tree to text and re-parses
that text into a fresh tree for the given file name; the spec requires the
fresh tree to represent the same document, so the round trip is modelled as
structure-preserving, with a fresh object identity. -/
def printThenReparse (freshId : Nat) (fileName : String) (sourceFile : SourceFile) : SourceFile :=
  { sourceFile with id := freshId, fileName := fileName }

/-- `recreateVueTempalteSourceFile` (sic): extract the template code from the
snapshot, parse it, and try to transform it and inject the resulting
expressions; a thrown transform error is caught — the interrupted assignment
leaves `expressions` unused, the injection is skipped, and two log lines
(the file name, then the error) are emitted. The (possibly unmodified) tree
is then printed and re-parsed, and the source map is stored in
`templateSourceMap` under the file name and under the file name with the
`'.template'` suffix sliced off. -/
def recreateVueTempalteSourceFile (ext : Externals) (st : UpdaterState)
    (vueTemplateFileName : String) (sourceFile : SourceFile) (scriptSnapshot : String) :
    SourceFile × UpdaterState :=
  let templateCode := parseVueTemplate ext.regions scriptSnapshot
  let program := ext.parseTemplate templateCode
  let outcome := ext.transformTemplate program templateCode
  let sourceFile2 :=
    match outcome with
    | .ok expressions => injectVueTemplate sourceFile expressions
    | .threw _ _ => sourceFile
  let logs2 :=
    match outcome with
    | .ok _ => st.logs
    | .threw _ errMsg =>
      st.logs ++ ["Failed to transform template of " ++ vueTemplateFileName, errMsg]
  let newSourceFile := printThenReparse st.nextId vueTemplateFileName sourceFile2
  let sourceMapNodes := ext.generateSourceMap sourceFile2 newSourceFile
  let t1 := (vueTemplateFileName, sourceMapNodes) :: st.templateSourceMap
  let t2 := (vueTemplateFileName.dropRight templateSuffixLength, sourceMapNodes) :: t1
  (newSourceFile,
    { st with logs := logs2, templateSourceMap := t2, nextId := st.nextId + 1 })

/-- `modifySourceFile`: nothing happens when the file object already carries
the processed mark; an unprocessed `.vue` file whose script kind is not
TS-like is rewritten by `modifyVueScript` and marked; every other file is
returned untouched. -/
def modifySourceFile (st : UpdaterState) (fileName : String) (sourceFile : SourceFile)
    (_scriptSnapshot : String) (_version : String) (scriptKind : Option ScriptKind) :
    SourceFile × UpdaterState :=
  if st.modificationTracker.contains sourceFile.id then
    (sourceFile, st)
  else if isVue fileName && !isTSLike scriptKind then
    (modifyVueScript sourceFile,
      { st with modificationTracker := sourceFile.id :: st.modificationTracker })
  else
    (sourceFile, st)

/-- `createLanguageServiceSourceFile`: host-create the file, record its
script kind, then either fully derive the virtual template document (and
mark the result) or run the script rewrite path. -/
def createLanguageServiceSourceFile (ext : Externals) (st : UpdaterState)
    (fileName : String) (scriptSnapshot : String) (version : String)
    (scriptKind : Option ScriptKind) : SourceFile × UpdaterState :=
  let sourceFile := ext.clssf fileName scriptSnapshot version scriptKind
  let st1 := { st with scriptKindTracker := (sourceFile.id, scriptKind) :: st.scriptKindTracker }
  if isVirtualVueTemplateFile fileName then
    let r := recreateVueTempalteSourceFile ext st1 fileName sourceFile scriptSnapshot
    (r.1, { r.2 with modificationTracker := r.1.id :: r.2.modificationTracker })
  else
    modifySourceFile st1 fileName sourceFile scriptSnapshot version scriptKind

/-- `updateLanguageServiceSourceFile`: recover the script kind recorded for
the object, host-update it, then either fully re-derive the virtual template
document (and mark the result) or run the script rewrite path. -/
def updateLanguageServiceSourceFile (ext : Externals) (st : UpdaterState)
    (sourceFile : SourceFile) (scriptSnapshot : String) (version : String)
    (textChangeRange : TextChangeRange) : SourceFile × UpdaterState :=
  let scriptKind := kindLookup st.scriptKindTracker sourceFile.id
  let sourceFile1 := ext.ulssf sourceFile scriptSnapshot version textChangeRange
  if isVirtualVueTemplateFile sourceFile1.fileName then
    let r := recreateVueTempalteSourceFile ext st sourceFile1.fileName sourceFile1 scriptSnapshot
    (r.1, { r.2 with modificationTracker := r.1.id :: r.2.modificationTracker })
  else
    modifySourceFile st sourceFile1.fileName sourceFile1 scriptSnapshot version scriptKind

/-- Modelled from the spec: the routing decision `materialize` applies — a
virtual template document is fully re-derived and the result marked; any
other document goes through the script-rewrite path. Stated separately from
the two lifecycle operations so that "update re-runs the same routing
decision as creation" is a provable comparison. -/
def routeSourceFile (ext : Externals) (st : UpdaterState) (fileName : String)
    (sourceFile : SourceFile) (scriptSnapshot : String) (version : String)
    (scriptKind : Option ScriptKind) : SourceFile × UpdaterState :=
  if isVirtualVueTemplateFile fileName then
    let r := recreateVueTempalteSourceFile ext st fileName sourceFile scriptSnapshot
    (r.1, { r.2 with modificationTracker := r.1.id :: r.2.modificationTracker })
  else
    modifySourceFile st fileName sourceFile scriptSnapshot version scriptKind

/-- The wrapped render-body statements of a synthetic template document:
`some` of the function-expression block when the document has exactly the
injected three-statement shape, `none` otherwise. -/
def renderBodyStatements (sf : SourceFile) : Option (List Statement) :=
  match sf.statements with
  | [Statement.importDecl _ _ _, Statement.importDecl _ _ _,
      Statement.expressionStatement
        (.call (.identifier n _) [_, .functionExpr _ body _] _ _) _] =>
    if n == renderHelperName then some body else none
  | _ => none

theorem find?_append_cons (p : Statement → Bool) (s : Statement)
    (pre post : List Statement) (hpre : ∀ x ∈ pre, p x = false) (hs : p s = true) :
    (pre ++ s :: post).find? p = some s := by
  induction pre with
  | nil => simp [List.find?, hs]
  | cons a as ih =>
    have ha : p a = false := hpre a (by simp)
    simp only [List.cons_append, List.find?, ha]
    exact ih (fun x hx => hpre x (by simp [hx]))

theorem wrapFirst_append_cons (p : Statement → Bool) (f : Statement → Statement)
    (s : Statement) (pre post : List Statement)
    (hpre : ∀ x ∈ pre, p x = false) (hs : p s = true) :
    wrapFirst p f (pre ++ s :: post) = pre ++ f s :: post := by
  induction pre with
  | nil => simp [wrapFirst, hs]
  | cons a as ih =>
    have ha : p a = false := hpre a (by simp)
    have ih' := ih (fun x hx => hpre x (by simp [hx]))
    simp [wrapFirst, ha, ih']

theorem modifyVueScript_id (sf : SourceFile) : (modifyVueScript sf).id = sf.id := by
  unfold modifyVueScript
  cases sf.statements.find? isExportDefaultObject <;> rfl

theorem modifyVueScript_fileName (sf : SourceFile) :
    (modifyVueScript sf).fileName = sf.fileName := by
  unfold modifyVueScript
  cases sf.statements.find? isExportDefaultObject <;> rfl

/-- C8: a script document with no top-level default-export object literal is
returned entirely unmodified by the script rewrite (this case is not an
error: the rewrite is total). -/
theorem claim_C8_no_export_default_noop (sf : SourceFile)
    (h : sf.statements.find? isExportDefaultObject = none) :
    modifyVueScript sf = sf := by
  unfold modifyVueScript
  rw [h]

/-- Concrete instance of `claim_C8_no_export_default_noop`. -/
theorem claim_C8_witness :
    modifyVueScript ⟨0, "a.vue", [Statement.other 0 ⟨0, 5⟩], none⟩
      = ⟨0, "a.vue", [Statement.other 0 ⟨0, 5⟩], none⟩ :=
  claim_C8_no_export_default_noop ⟨0, "a.vue", [Statement.other 0 ⟨0, 5⟩], none⟩ rfl

/-- C3: when the statement list consists of a prefix with no default-export
object literal, then a default-export of an object literal spanning `r`,
after the rewrite that statement's expression is the call
`__vueEditorBridge(objectLiteral)`, where the call node and its argument
`NodeArray` carry exactly the original range `r` of the object literal, the
object literal keeps its original range, and the callee identifier spans
`r.pos .. r.pos + 1`. -/
theorem claim_C3_range_preservation (sf : SourceFile) (pre post : List Statement)
    (tag : Nat) (r rng : TextRange)
    (hstmts : sf.statements
      = pre ++ Statement.exportAssignment (.objectLiteral tag r) rng :: post)
    (hpre : ∀ x ∈ pre, isExportDefaultObject x = false) :
    (modifyVueScript sf).statements
      = vueEditorBridgeImport ::
          (pre ++
            Statement.exportAssignment
              (.call (.identifier "__vueEditorBridge" ⟨r.pos, r.pos + 1⟩)
                [.objectLiteral tag r] r r) rng :: post) := by
  have hs : isExportDefaultObject
      (Statement.exportAssignment (.objectLiteral tag r) rng) = true := rfl
  unfold modifyVueScript
  rw [hstmts, find?_append_cons _ _ _ _ hpre hs,
    wrapFirst_append_cons _ _ _ _ _ hpre hs]
  rfl

/-- Concrete instance of `claim_C3_range_preservation`: the script
`export default { a: 1 }` preceded by one unrelated statement. -/
theorem claim_C3_witness :
    (modifyVueScript
        ⟨1, "a.vue",
          [Statement.other 7 ⟨0, 3⟩,
            Statement.exportAssignment (.objectLiteral 1 ⟨10, 25⟩) ⟨4, 25⟩], none⟩).statements
      = vueEditorBridgeImport ::
          [Statement.other 7 ⟨0, 3⟩,
            Statement.exportAssignment
              (.call (.identifier "__vueEditorBridge" ⟨10, 11⟩)
                [.objectLiteral 1 ⟨10, 25⟩] ⟨10, 25⟩ ⟨10, 25⟩) ⟨4, 25⟩] :=
  claim_C3_range_preservation _ [Statement.other 7 ⟨0, 3⟩] [] 1 ⟨10, 25⟩ ⟨4, 25⟩ rfl
    (by decide)

/-- C9: when the script rewrite applies, the inserted bridge import is the
first statement, it carries the zero-width range `(0, 0)`, and that range
overlaps no statement range of the original document. -/
theorem claim_C9_zero_width_import (sf : SourceFile) (s : Statement)
    (h : sf.statements.find? isExportDefaultObject = some s) :
    (modifyVueScript sf).statements.head? = some vueEditorBridgeImport
      ∧ vueEditorBridgeImport.range = ⟨0, 0⟩
      ∧ ∀ st ∈ sf.statements, rangesOverlap vueEditorBridgeImport.range st.range = false := by
  refine ⟨?_, rfl, ?_⟩
  · unfold modifyVueScript
    rw [h]
    rfl
  · intro st _
    simp only [vueEditorBridgeImport, Statement.range, rangesOverlap,
      decide_eq_false_iff_not, not_lt]
    omega

/-- Concrete instance of `claim_C9_zero_width_import`. -/
theorem claim_C9_witness :
    (modifyVueScript
        ⟨2, "a.vue",
          [Statement.exportAssignment (.objectLiteral 0 ⟨3, 20⟩) ⟨0, 20⟩], none⟩).statements.head?
        = some vueEditorBridgeImport
      ∧ vueEditorBridgeImport.range = ⟨0, 0⟩
      ∧ ∀ st ∈ [Statement.exportAssignment (Expression.objectLiteral 0 ⟨3, 20⟩) ⟨0, 20⟩],
          rangesOverlap vueEditorBridgeImport.range st.range = false :=
  claim_C9_zero_width_import
    ⟨2, "a.vue", [Statement.exportAssignment (.objectLiteral 0 ⟨3, 20⟩) ⟨0, 20⟩], none⟩
    (Statement.exportAssignment (.objectLiteral 0 ⟨3, 20⟩) ⟨0, 20⟩) rfl

/-- C4: for every document and expression sequence, after injection the
top-level statement list is exactly the component import, the helper import
and the render-helper call statement, in that order, and the external-module
indicator is set to the component import (the first statement). -/
theorem claim_C4_injected_shape (sf : SourceFile) (renderBlock : List Expression) :
    (injectVueTemplate sf renderBlock).statements
      = [Statement.importDecl ⟨some "__Component", none, synthRange⟩
            (.stringLiteral ("./" ++ basename (sf.fileName.dropRight templateSuffixLength))
              synthRange) synthRange,
          Statement.importDecl
            ⟨none,
              some [renderHelperName, componentHelperName, iterationHelperName,
                listenerHelperName], synthRange⟩
            (.stringLiteral "vue-editor-bridge" synthRange) synthRange,
          Statement.expressionStatement
            (.call (.identifier renderHelperName synthRange)
              [.identifier "__Component" synthRange,
                .functionExpr []
                  (renderBlock.map (fun exp => Statement.expressionStatement exp synthRange))
                  synthRange]
              synthRange synthRange) synthRange]
      ∧ (injectVueTemplate sf renderBlock).externalModuleIndicator
          = (injectVueTemplate sf renderBlock).statements.head? :=
  ⟨rfl, rfl⟩

/-- C10: when the script region's text is empty, `parseVueScript` returns the
fallback script `'export default \x7b\x7d;'`. -/
theorem claim_C10_script_fallback (regions : String → Regions) (text : String)
    (h : (regions text).scriptText = "") :
    parseVueScript regions text = "export default {};" := by
  unfold parseVueScript
  rw [h]
  rfl

/-- Concrete instance of `claim_C10_script_fallback`. -/
theorem claim_C10_witness :
    parseVueScript (fun _ => ⟨"", "", "vue-html"⟩) "<template></template>"
      = "export default {};" :=
  claim_C10_script_fallback (fun _ => ⟨"", "", "vue-html"⟩) "<template></template>" rfl


theorem mapLookup_alias (t : List (String × SourceMapNodes)) (k k2 : String)
    (m : SourceMapNodes) :
    mapLookup ((k2, m) :: (k, m) :: t) k = some m
      ∧ mapLookup ((k2, m) :: (k, m) :: t) k2 = some m := by
  constructor
  · cases h : (k2 == k) <;> simp [mapLookup, List.find?, h]
  · simp [mapLookup, List.find?]

theorem recreate_eq_ok (ext : Externals) (st : UpdaterState) (fn : String)
    (sf : SourceFile) (snap : String) (exprs : List Expression)
    (h : ext.transformTemplate (ext.parseTemplate (parseVueTemplate ext.regions snap))
        (parseVueTemplate ext.regions snap) = .ok exprs) :
    recreateVueTempalteSourceFile ext st fn sf snap
      = (printThenReparse st.nextId fn (injectVueTemplate sf exprs),
          { st with
            templateSourceMap :=
              (fn.dropRight templateSuffixLength,
                  ext.generateSourceMap (injectVueTemplate sf exprs)
                    (printThenReparse st.nextId fn (injectVueTemplate sf exprs)))
                :: (fn,
                    ext.generateSourceMap (injectVueTemplate sf exprs)
                      (printThenReparse st.nextId fn (injectVueTemplate sf exprs)))
                :: st.templateSourceMap
            nextId := st.nextId + 1 }) := by
  simp only [recreateVueTempalteSourceFile, h]

theorem recreate_eq_threw (ext : Externals) (st : UpdaterState) (fn : String)
    (sf : SourceFile) (snap : String) (produced : List Expression) (msg : String)
    (h : ext.transformTemplate (ext.parseTemplate (parseVueTemplate ext.regions snap))
        (parseVueTemplate ext.regions snap) = .threw produced msg) :
    recreateVueTempalteSourceFile ext st fn sf snap
      = (printThenReparse st.nextId fn sf,
          { st with
            logs := st.logs ++ ["Failed to transform template of " ++ fn, msg]
            templateSourceMap :=
              (fn.dropRight templateSuffixLength,
                  ext.generateSourceMap sf (printThenReparse st.nextId fn sf))
                :: (fn, ext.generateSourceMap sf (printThenReparse st.nextId fn sf))
                :: st.templateSourceMap
            nextId := st.nextId + 1 }) := by
  simp only [recreateVueTempalteSourceFile, h]

/-- C5: after every re-derivation of a template-synthetic document, the
process-wide `templateSourceMap` table yields — regardless of its prior
contents, which are fully shadowed — the same freshly generated map under
both aliasing keys: the virtual file name and that name with the
`'.template'` suffix stripped. -/
theorem claim_C5_source_map_aliases (ext : Externals) (st : UpdaterState)
    (fn : String) (sf : SourceFile) (snap : String) :
    ∃ m,
      mapLookup ((recreateVueTempalteSourceFile ext st fn sf snap).2).templateSourceMap fn
          = some m
        ∧ mapLookup ((recreateVueTempalteSourceFile ext st fn sf snap).2).templateSourceMap
            (fn.dropRight templateSuffixLength) = some m := by
  rcases htr : ext.transformTemplate (ext.parseTemplate (parseVueTemplate ext.regions snap))
      (parseVueTemplate ext.regions snap) with exprs | ⟨produced, msg⟩
  · rw [recreate_eq_ok ext st fn sf snap exprs htr]
    exact ⟨_, (mapLookup_alias _ _ _ _).1, (mapLookup_alias _ _ _ _).2⟩
  · rw [recreate_eq_threw ext st fn sf snap produced msg htr]
    exact ⟨_, (mapLookup_alias _ _ _ _).1, (mapLookup_alias _ _ _ _).2⟩

/-- C6: `updateLanguageServiceSourceFile` recovers the script kind recorded
for the document object, applies the host engine's native update, and then
applies the same routing decision as creation (`routeSourceFile`) to the
updated result; `createLanguageServiceSourceFile` is that same routing
decision applied to the host-created file after recording its script kind. -/
theorem claim_C6_update_reruns_creation_routing (ext : Externals) (st : UpdaterState)
    (sf : SourceFile) (fn snap ver : String) (cr : TextChangeRange)
    (sk : Option ScriptKind) :
    updateLanguageServiceSourceFile ext st sf snap ver cr
        = routeSourceFile ext st (ext.ulssf sf snap ver cr).fileName
            (ext.ulssf sf snap ver cr) snap ver (kindLookup st.scriptKindTracker sf.id)
      ∧ createLanguageServiceSourceFile ext st fn snap ver sk
          = routeSourceFile ext
              { st with
                scriptKindTracker :=
                  ((ext.clssf fn snap ver sk).id, sk) :: st.scriptKindTracker }
              fn (ext.clssf fn snap ver sk) snap ver sk :=
  ⟨rfl, rfl⟩

theorem modify_eq_marked (st : UpdaterState) (fn : String) (sf : SourceFile)
    (snap ver : String) (k : Option ScriptKind)
    (h : st.modificationTracker.contains sf.id = true) :
    modifySourceFile st fn sf snap ver k = (sf, st) := by
  simp only [modifySourceFile, h, if_true]

theorem modify_eq_vue (st : UpdaterState) (fn : String) (sf : SourceFile)
    (snap ver : String) (k : Option ScriptKind)
    (h1 : st.modificationTracker.contains sf.id = false)
    (h2 : (isVue fn && !isTSLike k) = true) :
    modifySourceFile st fn sf snap ver k
      = (modifyVueScript sf,
          { st with modificationTracker := sf.id :: st.modificationTracker }) := by
  simp only [modifySourceFile, h1, h2, Bool.false_eq_true, if_false, if_true]

theorem modify_eq_other (st : UpdaterState) (fn : String) (sf : SourceFile)
    (snap ver : String) (k : Option ScriptKind)
    (h1 : st.modificationTracker.contains sf.id = false)
    (h2 : (isVue fn && !isTSLike k) = false) :
    modifySourceFile st fn sf snap ver k = (sf, st) := by
  simp only [modifySourceFile, h1, h2, Bool.false_eq_true, if_false]

theorem modifySourceFile_twice (st : UpdaterState) (fn : String) (sf : SourceFile)
    (snap ver : String) (k : Option ScriptKind) :
    modifySourceFile (modifySourceFile st fn sf snap ver k).2 fn
        (modifySourceFile st fn sf snap ver k).1 snap ver k
      = modifySourceFile st fn sf snap ver k := by
  cases h1 : st.modificationTracker.contains sf.id with
  | true =>
    rw [modify_eq_marked st fn sf snap ver k h1]
    exact modify_eq_marked st fn sf snap ver k h1
  | false =>
    cases h2 : isVue fn && !isTSLike k with
    | true =>
      rw [modify_eq_vue st fn sf snap ver k h1 h2]
      exact modify_eq_marked _ fn _ snap ver k (by simp [modifyVueScript_id])
    | false =>
      rw [modify_eq_other st fn sf snap ver k h1 h2]
      exact modify_eq_other st fn sf snap ver k h1 h2

theorem modifySourceFile_fst_fileName (st : UpdaterState) (fn : String) (sf : SourceFile)
    (snap ver : String) (k : Option ScriptKind) :
    (modifySourceFile st fn sf snap ver k).1.fileName = sf.fileName := by
  cases h1 : st.modificationTracker.contains sf.id with
  | true => rw [modify_eq_marked st fn sf snap ver k h1]
  | false =>
    cases h2 : isVue fn && !isTSLike k with
    | true =>
      rw [modify_eq_vue st fn sf snap ver k h1 h2]
      exact modifyVueScript_fileName sf
    | false => rw [modify_eq_other st fn sf snap ver k h1 h2]

theorem modifySourceFile_fst_id (st : UpdaterState) (fn : String) (sf : SourceFile)
    (snap ver : String) (k : Option ScriptKind) :
    (modifySourceFile st fn sf snap ver k).1.id = sf.id := by
  cases h1 : st.modificationTracker.contains sf.id with
  | true => rw [modify_eq_marked st fn sf snap ver k h1]
  | false =>
    cases h2 : isVue fn && !isTSLike k with
    | true =>
      rw [modify_eq_vue st fn sf snap ver k h1 h2]
      exact modifyVueScript_id sf
    | false => rw [modify_eq_other st fn sf snap ver k h1 h2]

theorem modifySourceFile_snd_scriptKindTracker (st : UpdaterState) (fn : String)
    (sf : SourceFile) (snap ver : String) (k : Option ScriptKind) :
    (modifySourceFile st fn sf snap ver k).2.scriptKindTracker = st.scriptKindTracker := by
  cases h1 : st.modificationTracker.contains sf.id with
  | true => rw [modify_eq_marked st fn sf snap ver k h1]
  | false =>
    cases h2 : isVue fn && !isTSLike k with
    | true => rw [modify_eq_vue st fn sf snap ver k h1 h2]
    | false => rw [modify_eq_other st fn sf snap ver k h1 h2]

theorem injectVueTemplate_statements_congr (sfA sfB : SourceFile) (es : List Expression)
    (h : sfA.fileName = sfB.fileName) :
    (injectVueTemplate sfA es).statements = (injectVueTemplate sfB es).statements := by
  simp [injectVueTemplate, h]

theorem recreate_fst_fileName (ext : Externals) (st : UpdaterState) (fn : String)
    (sf : SourceFile) (snap : String) :
    (recreateVueTempalteSourceFile ext st fn sf snap).1.fileName = fn := by
  rcases htr : ext.transformTemplate (ext.parseTemplate (parseVueTemplate ext.regions snap))
      (parseVueTemplate ext.regions snap) with exprs | ⟨produced, msg⟩
  · rw [recreate_eq_ok ext st fn sf snap exprs htr]
    rfl
  · rw [recreate_eq_threw ext st fn sf snap produced msg htr]
    rfl

theorem recreate_twice_statements (ext : Externals) (st st' : UpdaterState)
    (fn : String) (sf : SourceFile) (snap : String) (hfn : sf.fileName = fn) :
    (recreateVueTempalteSourceFile ext st' fn
        (recreateVueTempalteSourceFile ext st fn sf snap).1 snap).1.statements
      = (recreateVueTempalteSourceFile ext st fn sf snap).1.statements := by
  rcases htr : ext.transformTemplate (ext.parseTemplate (parseVueTemplate ext.regions snap))
      (parseVueTemplate ext.regions snap) with exprs | ⟨produced, msg⟩
  · rw [recreate_eq_ok ext st fn sf snap exprs htr,
      recreate_eq_ok ext st' fn _ snap exprs htr]
    exact injectVueTemplate_statements_congr _ _ exprs (by rw [hfn]; rfl)
  · rw [recreate_eq_threw ext st fn sf snap produced msg htr,
      recreate_eq_threw ext st' fn _ snap produced msg htr]
    rfl

theorem update_eq_virtual (ext : Externals) (st : UpdaterState) (sf : SourceFile)
    (snap ver : String) (cr : TextChangeRange)
    (hv : isVirtualVueTemplateFile (ext.ulssf sf snap ver cr).fileName = true) :
    updateLanguageServiceSourceFile ext st sf snap ver cr
      = ((recreateVueTempalteSourceFile ext st (ext.ulssf sf snap ver cr).fileName
            (ext.ulssf sf snap ver cr) snap).1,
          { (recreateVueTempalteSourceFile ext st (ext.ulssf sf snap ver cr).fileName
                (ext.ulssf sf snap ver cr) snap).2 with
            modificationTracker :=
              (recreateVueTempalteSourceFile ext st (ext.ulssf sf snap ver cr).fileName
                    (ext.ulssf sf snap ver cr) snap).1.id
                :: (recreateVueTempalteSourceFile ext st (ext.ulssf sf snap ver cr).fileName
                      (ext.ulssf sf snap ver cr) snap).2.modificationTracker }) := by
  simp only [updateLanguageServiceSourceFile, hv, if_true]

theorem update_eq_script (ext : Externals) (st : UpdaterState) (sf : SourceFile)
    (snap ver : String) (cr : TextChangeRange)
    (hv : isVirtualVueTemplateFile (ext.ulssf sf snap ver cr).fileName = false) :
    updateLanguageServiceSourceFile ext st sf snap ver cr
      = modifySourceFile st (ext.ulssf sf snap ver cr).fileName (ext.ulssf sf snap ver cr)
          snap ver (kindLookup st.scriptKindTracker sf.id) := by
  simp only [updateLanguageServiceSourceFile, hv, Bool.false_eq_true, if_false]

theorem create_eq_script (ext : Externals) (st : UpdaterState) (fn snap ver : String)
    (k : Option ScriptKind) (hv : isVirtualVueTemplateFile fn = false) :
    createLanguageServiceSourceFile ext st fn snap ver k
      = modifySourceFile
          { st with
            scriptKindTracker := ((ext.clssf fn snap ver k).id, k) :: st.scriptKindTracker }
          fn (ext.clssf fn snap ver k) snap ver k := by
  simp only [createLanguageServiceSourceFile, hv, Bool.false_eq_true, if_false]

/-- C2: a second invocation of a lifecycle operation on an already-processed
document object is a no-op. Three facts: (a) running the script-rewrite path
twice in a row changes nothing the second time — the processed mark recorded
by the first run short-circuits the second; (b) when the host update hands
back the same document object (no text change), a second
`updateLanguageServiceSourceFile` leaves the statement list of the first
call's result unchanged, for template-synthetic documents (deterministic
full re-derivation) and script documents (processed mark) alike; (c) when
the host create hands back a document object already carrying the processed
mark, a non-template `createLanguageServiceSourceFile` returns it
structurally unchanged. -/
theorem claim_C2_second_call_noop :
    (∀ (st : UpdaterState) (fn : String) (sf : SourceFile) (snap ver : String)
        (k : Option ScriptKind),
      modifySourceFile (modifySourceFile st fn sf snap ver k).2 fn
          (modifySourceFile st fn sf snap ver k).1 snap ver k
        = modifySourceFile st fn sf snap ver k)
      ∧ (∀ (ext : Externals) (st : UpdaterState) (sf : SourceFile) (snap ver : String)
          (cr : TextChangeRange),
        (∀ s, ext.ulssf s snap ver cr = s) →
        ((updateLanguageServiceSourceFile ext
              (updateLanguageServiceSourceFile ext st sf snap ver cr).2
              (updateLanguageServiceSourceFile ext st sf snap ver cr).1 snap ver cr).1).statements
          = ((updateLanguageServiceSourceFile ext st sf snap ver cr).1).statements)
      ∧ (∀ (ext : Externals) (st : UpdaterState) (fn snap ver : String)
          (k : Option ScriptKind),
        st.modificationTracker.contains (ext.clssf fn snap ver k).id = true →
        isVirtualVueTemplateFile fn = false →
        (createLanguageServiceSourceFile ext st fn snap ver k).1
          = ext.clssf fn snap ver k) := by
  refine ⟨fun st fn sf snap ver k => modifySourceFile_twice st fn sf snap ver k, ?_, ?_⟩
  · intro ext st sf snap ver cr hu
    cases hv : isVirtualVueTemplateFile sf.fileName with
    | true =>
      have hv1 : isVirtualVueTemplateFile (ext.ulssf sf snap ver cr).fileName = true := by
        rw [hu sf]; exact hv
      rw [update_eq_virtual ext st sf snap ver cr hv1]
      rw [hu sf]
      have hv2 : isVirtualVueTemplateFile
          (ext.ulssf (recreateVueTempalteSourceFile ext st sf.fileName sf snap).1
            snap ver cr).fileName = true := by
        rw [hu _, recreate_fst_fileName]; exact hv
      rw [update_eq_virtual ext _ _ snap ver cr hv2]
      rw [hu _, recreate_fst_fileName]
      exact recreate_twice_statements ext st _ sf.fileName sf snap rfl
    | false =>
      have hv1 : isVirtualVueTemplateFile (ext.ulssf sf snap ver cr).fileName = false := by
        rw [hu sf]; exact hv
      rw [update_eq_script ext st sf snap ver cr hv1]
      rw [hu sf]
      have hv2 : isVirtualVueTemplateFile
          (ext.ulssf (modifySourceFile st sf.fileName sf snap ver
              (kindLookup st.scriptKindTracker sf.id)).1 snap ver cr).fileName = false := by
        rw [hu _, modifySourceFile_fst_fileName]; exact hv
      rw [update_eq_script ext _ _ snap ver cr hv2]
      rw [hu _, modifySourceFile_fst_fileName, modifySourceFile_fst_id,
        modifySourceFile_snd_scriptKindTracker, modifySourceFile_twice]
  · intro ext st fn snap ver k hmark hv
    have hmark2 : (({ st with
          scriptKindTracker :=
            ((ext.clssf fn snap ver k).id, k) :: st.scriptKindTracker } :
        UpdaterState)).modificationTracker.contains (ext.clssf fn snap ver k).id = true :=
      hmark
    rw [create_eq_script ext st fn snap ver k hv,
      modify_eq_marked _ fn _ snap ver k hmark2]

/-- Identity-host externals used by concrete instances: the transform
visitor succeeds with no expressions. -/
def extId : Externals :=
  { regions := fun _ => ⟨"", "", "vue-html"⟩
    parseTemplate := fun _ => ⟨0⟩
    transformTemplate := fun _ _ => .ok []
    generateSourceMap := fun _ _ => []
    clssf := fun fn _ _ _ => ⟨0, fn, [], none⟩
    ulssf := fun s _ _ _ => s }

/-- An empty updater state. -/
def stInit : UpdaterState := ⟨[], [], [], [], 100⟩

/-- A state whose processed mark already records object identity `0`. -/
def stMarked : UpdaterState := ⟨[], [0], [], [], 100⟩

/-- A trivial text change range. -/
def crNone : TextChangeRange := ⟨0, 0, 0⟩

/-- A component script document: `export default \x7b ... \x7d`. -/
def sfScript : SourceFile :=
  ⟨10, "comp.vue", [Statement.exportAssignment (.objectLiteral 0 ⟨15, 30⟩) ⟨0, 30⟩], none⟩

/-- Concrete instance of `claim_C2_second_call_noop`: a second update on an
unchanged script document leaves its statements unchanged, and a create that
receives an already-marked object returns it unmodified. -/
theorem claim_C2_witness :
    ((updateLanguageServiceSourceFile extId
          (updateLanguageServiceSourceFile extId stInit sfScript "t" "1" crNone).2
          (updateLanguageServiceSourceFile extId stInit sfScript "t" "1" crNone).1
          "t" "1" crNone).1).statements
        = ((updateLanguageServiceSourceFile extId stInit sfScript "t" "1" crNone).1).statements
      ∧ (createLanguageServiceSourceFile extId stMarked "comp.vue" "t" "1" none).1
          = extId.clssf "comp.vue" "t" "1" none :=
  ⟨claim_C2_second_call_noop.2.1 extId stInit sfScript "t" "1" crNone (fun _ => rfl),
    claim_C2_second_call_noop.2.2 extId stMarked "comp.vue" "t" "1" none (by decide)
      (by decide)⟩

/-- Externals whose transform visitor throws after having produced one
expression internally. -/
def extThrow : Externals :=
  { regions := fun _ => ⟨"", "<div>{{ msg }}</div>", "vue-html"⟩
    parseTemplate := fun _ => ⟨0⟩
    transformTemplate := fun _ _ => .threw [.identifier "msg" synthRange] "transform error"
    generateSourceMap := fun _ _ => []
    clssf := fun fn _ _ _ => ⟨0, fn, [], none⟩
    ulssf := fun s _ _ _ => s }

/-- The host-parsed virtual template file before re-derivation. -/
def sfTemplate : SourceFile := ⟨5, "comp.vue.template", [Statement.other 0 ⟨0, 4⟩], none⟩

/-- C1 counterexample: the transform visitor throws after producing
`k = 1` expressions, yet the derived document does not contain exactly one
wrapped statement — a thrown visitor aborts the interrupted assignment, so
the injection is skipped wholesale and no wrapped render body exists at
all. -/
theorem claim_C1_counterexample :
    (renderBodyStatements
        (recreateVueTempalteSourceFile extThrow stInit "comp.vue.template" sfTemplate
            "snapshot").1).map List.length
      ≠ some 1 := by
  decide

/-- C1 (amended): if the transform visitor throws — no matter how many
expressions it produced before throwing — the derivation does not propagate
the failure: two log lines naming the document identity are appended, the
injection step is skipped entirely, and the returned document is the
print-and-reparse of the unmodified host-parsed tree, containing the
original statements and zero wrapped render statements. -/
theorem claim_C1_failure_degrades (ext : Externals) (st : UpdaterState)
    (fn : String) (sf : SourceFile) (snap : String) (produced : List Expression)
    (msg : String)
    (h : ext.transformTemplate (ext.parseTemplate (parseVueTemplate ext.regions snap))
        (parseVueTemplate ext.regions snap) = .threw produced msg) :
    (recreateVueTempalteSourceFile ext st fn sf snap).1.statements = sf.statements
      ∧ (recreateVueTempalteSourceFile ext st fn sf snap).2.logs
          = st.logs ++ ["Failed to transform template of " ++ fn, msg] := by
  rw [recreate_eq_threw ext st fn sf snap produced msg h]
  exact ⟨rfl, rfl⟩

/-- Concrete instance of `claim_C1_failure_degrades`. -/
theorem claim_C1_witness :
    (recreateVueTempalteSourceFile extThrow stInit "comp.vue.template" sfTemplate
          "snapshot").1.statements = sfTemplate.statements
      ∧ (recreateVueTempalteSourceFile extThrow stInit "comp.vue.template" sfTemplate
            "snapshot").2.logs
          = stInit.logs
              ++ ["Failed to transform template of " ++ "comp.vue.template",
                "transform error"] :=
  claim_C1_failure_degrades extThrow stInit "comp.vue.template" sfTemplate "snapshot"
    [.identifier "msg" synthRange] "transform error" rfl

/-- Externals whose region splitter reports a whitespace-only template
section, and whose transform visitor yields no expressions. -/
def extEmptyTemplate : Externals :=
  { regions := fun _ => ⟨"", "   \n  ", "vue-html"⟩
    parseTemplate := fun _ => ⟨0⟩
    transformTemplate := fun _ _ => .ok []
    generateSourceMap := fun _ _ => []
    clssf := fun fn _ _ _ => ⟨0, fn, [], none⟩
    ulssf := fun s _ _ _ => s }

/-- The host-parsed virtual template file for the empty-template scenario. -/
def sfTemplate2 : SourceFile := ⟨6, "comp.vue.template", [], none⟩

/-- C7 counterexample: a whitespace-only template section is indeed treated
as empty template text, yet the synthetic document's top-level statement
list is not empty — the injector emits its three statements regardless
(leaving only the render body empty), and the transform visitor is invoked
on the empty code rather than skipped. -/
theorem claim_C7_counterexample :
    parseVueTemplate extEmptyTemplate.regions "snapshot" = ""
      ∧ (recreateVueTempalteSourceFile extEmptyTemplate stInit "comp.vue.template"
            sfTemplate2 "snapshot").1.statements ≠ [] := by
  constructor
  · decide
  · intro hcontra
    exact absurd (congrArg List.length hcontra) (by decide)

/-- C7 (amended): for a component file whose template section is
whitespace-only, the extracted template text is empty; the transform visitor
is nevertheless invoked (on the parse of the empty code) — when it yields
no expressions, the injected render body holds zero wrapped statements and
the synthetic document's top-level statement list is the three injected
statements rather than being empty. -/
theorem claim_C7_empty_template (ext : Externals) (st : UpdaterState) (fn : String)
    (sf : SourceFile) (snap : String)
    (hlang : (ext.regions snap).templateLanguageId = "vue-html")
    (hws : stripWhitespace (ext.regions snap).templateText = "")
    (hok : ext.transformTemplate (ext.parseTemplate "") "" = .ok []) :
    parseVueTemplate ext.regions snap = ""
      ∧ (recreateVueTempalteSourceFile ext st fn sf snap).1.statements.length = 3
      ∧ renderBodyStatements (recreateVueTempalteSourceFile ext st fn sf snap).1
          = some [] := by
  have hpt : parseVueTemplate ext.regions snap = "" := by
    simp [parseVueTemplate, hlang, hws]
  have htr : ext.transformTemplate (ext.parseTemplate (parseVueTemplate ext.regions snap))
      (parseVueTemplate ext.regions snap) = .ok [] := by
    rw [hpt]; exact hok
  refine ⟨hpt, ?_, ?_⟩
  · rw [recreate_eq_ok ext st fn sf snap [] htr]
    rfl
  · rw [recreate_eq_ok ext st fn sf snap [] htr]
    rfl

/-- Concrete instance of `claim_C7_empty_template`. -/
theorem claim_C7_witness :
    parseVueTemplate extEmptyTemplate.regions "snap" = ""
      ∧ (recreateVueTempalteSourceFile extEmptyTemplate stInit "comp.vue.template"
            sfTemplate2 "snap").1.statements.length = 3
      ∧ renderBodyStatements
            (recreateVueTempalteSourceFile extEmptyTemplate stInit "comp.vue.template"
              sfTemplate2 "snap").1
          = some [] :=
  claim_C7_empty_template extEmptyTemplate stInit "comp.vue.template" sfTemplate2 "snap"
    rfl (by decide) rfl

end Vetur
